import Mathlib

/-!
Verification of the private_poker repository client-side networking code.

The definitions below are shallow embeddings of:
  - the client network-thread event loop of src/pp_client/src/app.rs
    (App::run), including its outbound message queue, error
    classification, and readiness re-registration;
  - the blocking client of src/poker/src/net/client.rs (Client::connect,
    Client::recv, Client::recv_ack, Client::recv_view);
  - the pp_server command-line declaration of src/pp_server/src/main.rs;
  - the TUI command dispatcher of src/pp_client/src/app.rs
    (App::new, App::handle_command).
-/

namespace PrivatePoker

/-- The std::io::ErrorKind values distinguished by the client event loop in
App::run (src/pp_client/src/app.rs); `other` stands for every kind the code
matches with a wildcard arm. -/
inductive ErrKind
  | brokenPipe
  | connectionAborted
  | connectionReset
  | timedOut
  | unexpectedEof
  | invalidData
  | wouldBlock
  | writeZero
  | interrupted
  | other
  deriving DecidableEq, Repr

/-- What the network thread does with a failed write_prefixed call
(src/pp_client/src/app.rs lines 573-599): `fatal` is bail! (the loop
terminates with an error), `requeueStop` pushes the failed message back on
the front of the queue, re-registers READABLE and breaks out of the write
loop, `requeueRetry` pushes the message back on the front and retries the
write loop at once. -/
inductive WriteErrOutcome
  | fatal
  | requeueStop
  | requeueRetry
  deriving DecidableEq, Repr

/-- Error classification of the write arm of App::run, transcribed from the
match in src/pp_client/src/app.rs lines 573-599. -/
def writeErrOutcome : ErrKind → WriteErrOutcome
  | .brokenPipe => .fatal
  | .connectionAborted => .fatal
  | .connectionReset => .fatal
  | .timedOut => .fatal
  | .unexpectedEof => .fatal
  | .wouldBlock => .requeueStop
  | .writeZero => .requeueRetry
  | _ => .fatal

/-- What the network thread does with a failed read_prefixed call
(src/pp_client/src/app.rs lines 620-638): `fatal` is bail!, `benign`
(WouldBlock) just stops the read loop and lets the event loop continue. -/
inductive ReadErrOutcome
  | fatal
  | benign
  deriving DecidableEq, Repr

/-- Error classification of the read arm of App::run, transcribed from the
match in src/pp_client/src/app.rs lines 620-638. -/
def readErrOutcome : ErrKind → ReadErrOutcome
  | .brokenPipe => .fatal
  | .connectionAborted => .fatal
  | .connectionReset => .fatal
  | .invalidData => .fatal
  | .timedOut => .fatal
  | .unexpectedEof => .fatal
  | .wouldBlock => .benign
  | _ => .fatal

/-- What the network thread does with a failed poll
(src/pp_client/src/app.rs lines 555-560): Interrupted retries the poll
(`continue`), anything else is bail!. -/
inductive PollErrOutcome
  | retry
  | fatal
  deriving DecidableEq, Repr

/-- Error classification of the poll call of App::run, transcribed from the
match in src/pp_client/src/app.rs lines 555-560. -/
def pollErrOutcome : ErrKind → PollErrOutcome
  | .interrupted => .retry
  | _ => .fatal

/-- Result of one write_prefixed call on the nonblocking stream. The spec
of write_prefixed (section 4.1) promises no partial commit, so a single
call either writes the whole message or fails with an ErrKind. -/
inductive WriteResult
  | ok
  | err (k : ErrKind)
  deriving DecidableEq, Repr

/-- How one run of the write-drain loop of App::run ended:
`drained` means the queue became empty (pop_front returned None),
`wouldBlockStop` means a WouldBlock error pushed the failed message back on
the front, re-registered READABLE and broke out, `fatal` means the loop
bailed, `outOfResults` is a model artifact meaning the supplied list of
write results was exhausted while messages remained. -/
inductive DrainEnd
  | drained
  | wouldBlockStop
  | fatal (k : ErrKind)
  | outOfResults
  deriving DecidableEq, Repr

/-- Result of one run of the write-drain loop of App::run: the messages
written to the stream in order, the messages still queued in order, and how
the loop ended. -/
structure DrainResult (α : Type) where
  written : List α
  remaining : List α
  ended : DrainEnd
  deriving DecidableEq, Repr

/-- The write-drain loop of App::run (src/pp_client/src/app.rs lines
565-607): while the queue is nonempty, pop_front a message and attempt
write_prefixed; on success continue; on WouldBlock push_front and stop; on
WriteZero push_front and retry; on a fatal kind bail. The first argument
supplies the outcome of each successive write_prefixed call. -/
def drainWrites {α : Type} : List WriteResult → List α → DrainResult α
  | _, [] => ⟨[], [], .drained⟩
  | [], q => ⟨[], q, .outOfResults⟩
  | r :: rs, m :: q =>
    match r with
    | .ok =>
      let d := drainWrites rs q
      ⟨m :: d.written, d.remaining, d.ended⟩
    | .err k =>
      match writeErrOutcome k with
      | .fatal => ⟨[], m :: q, .fatal k⟩
      | .requeueStop => ⟨[], m :: q, .wouldBlockStop⟩
      | .requeueRetry => drainWrites rs (m :: q)

/-- The WAKER arm of App::run (src/pp_client/src/app.rs lines 645-654)
appends each message received from the UI thread to the BACK of the
outbound queue (push_back). -/
def enqueueOutbound {α : Type} (q : List α) (m : α) : List α := q ++ [m]

/-- Readiness interest the client stream is registered with. -/
inductive Interest
  | readable
  | readWrite
  deriving DecidableEq, Repr

/-- Initial registration of the client stream (src/pp_client/src/app.rs
lines 551-552): READABLE only. -/
def initialInterest : Interest := .readable

/-- Network-thread state relevant to readiness registration: the current
interest of the stream registration and the outbound message queue. -/
structure NetState (α : Type) where
  interest : Interest
  queue : List α
  deriving DecidableEq, Repr

/-- Handling of one message received on the WAKER channel
(src/pp_client/src/app.rs lines 645-654): push_back onto the queue and
re-register with READABLE and WRITABLE. -/
def onWakerRecv {α : Type} (s : NetState α) (m : α) : NetState α :=
  ⟨.readWrite, enqueueOutbound s.queue m⟩

/-- Handling of a writable readiness event (src/pp_client/src/app.rs lines
565-607): if the queue is nonempty, run the write-drain loop; only the
WouldBlock exit re-registers READABLE (the WriteZero arm continues past
the re-register, and draining to empty leaves the registration alone).
On a fatal exit the thread returns, so the state is no longer used. -/
def onWritable {α : Type} (s : NetState α) (rs : List WriteResult) : NetState α :=
  if s.queue.isEmpty then s
  else
    let d := drainWrites rs s.queue
    match d.ended with
    | .wouldBlockStop => ⟨.readable, d.remaining⟩
    | _ => ⟨s.interest, d.remaining⟩

theorem drainWrites_append {α : Type} (rs : List WriteResult) (q : List α) :
    (drainWrites rs q).written ++ (drainWrites rs q).remaining = q := by
  induction rs generalizing q with
  | nil => cases q <;> simp [drainWrites]
  | cons r rs ih =>
    cases q with
    | nil => simp [drainWrites]
    | cons m q =>
      cases r with
      | ok => simpa [drainWrites] using ih q
      | err k =>
        cases hk : writeErrOutcome k <;> simp [drainWrites, hk]
        exact ih (m :: q)

/-- C1: Messages handed to the network thread by the UI thread are written
to the server in submission order: the WAKER arm appends each received
message to the back of the outbound queue, the write loop drains from the
front, and a WouldBlock or WriteZero failure pushes the failed message back
onto the front unchanged, so for any sequence of write results the messages
written followed by the messages still queued are exactly the submitted
sequence: no message is dropped, duplicated, or reordered. -/
theorem outbound_messages_fifo {α : Type} (batch pending : List α)
    (rs : List WriteResult) :
    List.foldl enqueueOutbound pending batch = pending ++ batch ∧
    (drainWrites rs (pending ++ batch)).written
        ++ (drainWrites rs (pending ++ batch)).remaining
      = pending ++ batch := by
  constructor
  · induction batch generalizing pending with
    | nil => simp
    | cons b bs ih => simp [enqueueOutbound, ih]
  · exact drainWrites_append rs (pending ++ batch)

/-- C2: In the client network-thread event loop, WouldBlock is never fatal
for reads or writes (the write arm requeues the message and waits for a
later readiness event, the read arm just stops reading), Interrupted from
poll retries the poll, and each of BrokenPipe, ConnectionReset,
ConnectionAborted, TimedOut, UnexpectedEof — and InvalidData for reads —
terminates the loop with an error. -/
theorem network_loop_error_taxonomy :
    writeErrOutcome .wouldBlock = .requeueStop ∧
    writeErrOutcome .wouldBlock ≠ .fatal ∧
    readErrOutcome .wouldBlock = .benign ∧
    readErrOutcome .wouldBlock ≠ .fatal ∧
    pollErrOutcome .interrupted = .retry ∧
    writeErrOutcome .brokenPipe = .fatal ∧
    writeErrOutcome .connectionReset = .fatal ∧
    writeErrOutcome .connectionAborted = .fatal ∧
    writeErrOutcome .timedOut = .fatal ∧
    writeErrOutcome .unexpectedEof = .fatal ∧
    readErrOutcome .brokenPipe = .fatal ∧
    readErrOutcome .connectionReset = .fatal ∧
    readErrOutcome .connectionAborted = .fatal ∧
    readErrOutcome .timedOut = .fatal ∧
    readErrOutcome .unexpectedEof = .fatal ∧
    readErrOutcome .invalidData = .fatal := by decide

/-- C3 counterexample: enqueue one message into an empty queue (the stream
is re-registered READABLE and WRITABLE), then one writable event whose
single write succeeds: the outbound queue empties, yet the registration
does not revert to READABLE-only as the claim states. -/
theorem interest_no_revert_on_drain :
    (onWritable (onWakerRecv (⟨initialInterest, []⟩ : NetState Nat) 0)
        [WriteResult.ok]).queue = [] ∧
    (onWritable (onWakerRecv (⟨initialInterest, []⟩ : NetState Nat) 0)
        [WriteResult.ok]).interest ≠ Interest.readable := by decide

/-- C3 amended: the stream is initially registered READABLE only; enqueuing
an outbound message re-registers it READABLE and WRITABLE (in particular
when the queue was previously empty); but the registration reverts to
READABLE only when a write fails with WouldBlock — when the queue empties
through successful writes the interest is left unchanged. -/
theorem interest_discipline (s : NetState Nat) (m : Nat)
    (rs : List WriteResult) :
    initialInterest = .readable ∧
    (onWakerRecv s m).interest = .readWrite ∧
    (onWakerRecv s m).queue = s.queue ++ [m] ∧
    (s.queue ≠ [] → (drainWrites rs s.queue).ended = .wouldBlockStop →
      (onWritable s rs).interest = .readable) ∧
    (s.queue ≠ [] → (drainWrites rs s.queue).ended = .drained →
      (onWritable s rs).interest = s.interest) := by
  refine ⟨rfl, rfl, rfl, ?_, ?_⟩
  · intro hne hend
    simp [onWritable, List.isEmpty_iff, hne, hend]
  · intro hne hend
    simp [onWritable, List.isEmpty_iff, hne, hend]

/-- C3 amended witness: a nonempty queue whose write attempt hits
WouldBlock reverts the registration to READABLE, while a queue drained by a
successful write keeps READABLE and WRITABLE. -/
theorem interest_discipline_witness :
    (onWritable (⟨Interest.readWrite, [0]⟩ : NetState Nat)
        [WriteResult.err .wouldBlock]).interest = Interest.readable ∧
    (onWritable (⟨Interest.readWrite, [0]⟩ : NetState Nat)
        [WriteResult.ok]).interest = Interest.readWrite :=
  ⟨(interest_discipline ⟨.readWrite, [0]⟩ 0 [.err .wouldBlock]).2.2.2.1
      (by decide) (by decide),
   (interest_discipline ⟨.readWrite, [0]⟩ 0 [.ok]).2.2.2.2
      (by decide) (by decide)⟩

/-- User role requested by ChangeState. Modelled from the spec: the
UserState enum lives in the poker library (net/messages), which is not
among the provided source files; the spec (section 4.2) enumerates
Spectate, Waitlist, Play. -/
inductive UserState
  | spectate
  | waitlist
  | play
  deriving DecidableEq, Repr

/-- Betting action. Modelled from the spec: the Action enum lives in the
poker library (game/entities), not among the provided source files; the
spec (section 4.2) enumerates Fold, Check, Call(amount), Raise(amount),
AllIn. Amounts are Usd (unsigned currency units), embedded as Nat. -/
inductive Action
  | fold
  | check
  | call (amount : Nat)
  | raise (amount : Nat)
  | allIn
  deriving DecidableEq, Repr

/-- Client command. Modelled from the spec: the ClientCommand enum lives in
the poker library (net/messages); the spec (section 4.2) enumerates
Connect, ChangeState, StartGame, TakeAction, ShowHand. -/
inductive ClientCommand
  | connect
  | changeState (s : UserState)
  | startGame
  | takeAction (a : Action)
  | showHand
  deriving DecidableEq, Repr

/-- Request envelope. Modelled from the spec: every request carries
a username and a command (section 4.2). -/
structure ClientMessage where
  username : String
  command : ClientCommand
  deriving DecidableEq, Repr

/-- Observer projection of the game state. Its fields are irrelevant to the
claims settled here, so it is kept abstract as a tag. -/
structure GameView where
  tag : Nat
  deriving DecidableEq, Repr

/-- Server response. Modelled from the spec: the ServerResponse enum lives
in the poker library (net/messages); the spec (section 4.2) enumerates
Ack, ClientError, UserError, GameView, Status, TurnSignal. Error payloads
are embedded as strings, TurnSignal carries the legal action set. -/
inductive ServerResponse
  | ack (m : ClientMessage)
  | clientError (e : String)
  | userError (e : String)
  | gameView (v : GameView)
  | status (s : String)
  | turnSignal (actions : List Action)
  deriving DecidableEq, Repr

/-- Failure of one read_prefixed call: an I/O error of some kind, or a
decode failure of the received frame. -/
inductive ReadErr
  | io (k : ErrKind)
  | decode
  deriving DecidableEq, Repr

/-- Outcome of one read_prefixed call on the blocking client stream. -/
abbrev ReadResult := Except ReadErr ServerResponse

/-- Error carried by the anyhow Result of the Client receive helpers in
src/poker/src/net/client.rs: the bail! arms wrap a ClientError payload, a
UserError payload, an unexpected response, or the read failure itself. -/
inductive RecvErr
  | clientError (e : String)
  | userError (e : String)
  | invalidResponse (r : ServerResponse)
  | readFailed (e : ReadErr)
  deriving DecidableEq, Repr

/-- Client::recv_ack (src/poker/src/net/client.rs lines 75-85): Ok only on
an Ack; ClientError and UserError payloads are bailed, any other response
bails as invalid, and a read failure is propagated. -/
def recv_ack : ReadResult → Except RecvErr Unit
  | .ok (.ack _) => .ok ()
  | .ok (.clientError e) => .error (.clientError e)
  | .ok (.userError e) => .error (.userError e)
  | .ok r => .error (.invalidResponse r)
  | .error e => .error (.readFailed e)

/-- Client::recv_view (src/poker/src/net/client.rs lines 107-117): Ok only
on a GameView; ClientError and UserError payloads are bailed, any other
response bails as invalid, and a read failure is propagated. -/
def recv_view : ReadResult → Except RecvErr GameView
  | .ok (.clientError e) => .error (.clientError e)
  | .ok (.gameView v) => .ok v
  | .ok (.userError e) => .error (.userError e)
  | .ok r => .error (.invalidResponse r)
  | .error e => .error (.readFailed e)

/-- Client::recv (src/poker/src/net/client.rs lines 67-73): a decoded
UserError is bailed, every other decoded response is returned unchanged,
and a read failure is propagated. -/
def recv : ReadResult → Except RecvErr ServerResponse
  | .ok (.userError e) => .error (.userError e)
  | .ok msg => .ok msg
  | .error e => .error (.readFailed e)

/-- Whether a response is the UserError variant (the one Client::recv turns
into an Err). -/
def isUserError : ServerResponse → Bool
  | .userError _ => true
  | _ => false

/-- The receive half of Client::connect after the Connect request is
written (src/poker/src/net/client.rs lines 46-59): recv_ack on the first
response, then recv_view on the second; the returned view is the one
received. -/
def connectHandshake (r1 r2 : ReadResult) : Except RecvErr GameView :=
  match recv_ack r1 with
  | .ok _ => recv_view r2
  | .error e => .error e

/-- C4: the handshake of Client::connect succeeds if and only if the first
server response received is an Ack and the second is a GameView; in the
success case the received view is returned. A ClientError, UserError, any
other non-Ack first response, a non-GameView second response, or a read
failure at either step makes connect return an error. -/
theorem connect_handshake_iff (r1 r2 : ReadResult) :
    ((connectHandshake r1 r2).isOk = true ↔
      (∃ m, r1 = .ok (.ack m)) ∧ ∃ v, r2 = .ok (.gameView v)) ∧
    ∀ m v, connectHandshake (.ok (.ack m)) (.ok (.gameView v)) = .ok v := by
  refine ⟨?_, fun m v => by simp [connectHandshake, recv_ack, recv_view]⟩
  rcases r1 with e1 | m1
  · simp [connectHandshake, recv_ack, Except.isOk, Except.toBool]
  · rcases r2 with e2 | m2
    · cases m1 <;>
        simp [connectHandshake, recv_ack, recv_view, Except.isOk,
          Except.toBool]
    · cases m1 <;> cases m2 <;>
        simp [connectHandshake, recv_ack, recv_view, Except.isOk,
          Except.toBool]

/-- C6: Client::recv returns an Err exactly when the read or decode of the
next frame fails or the decoded response is a UserError; every other
response — including ClientError — is returned as Ok, unchanged. -/
theorem recv_err_iff (r : ReadResult) :
    ((recv r).isOk = true ↔ ∃ msg, r = .ok msg ∧ isUserError msg = false) ∧
    (∀ msg, isUserError msg = false → recv (.ok msg) = .ok msg) := by
  constructor
  · constructor
    · intro h
      rcases r with e | m
      · simp [recv, Except.isOk, Except.toBool] at h
      · exact ⟨m, rfl, by
          cases m <;> simp_all [recv, isUserError, Except.isOk, Except.toBool]⟩
    · rintro ⟨msg, rfl, hmsg⟩
      cases msg <;> simp_all [recv, isUserError, Except.isOk, Except.toBool]
  · intro msg hmsg
    cases msg <;> simp_all [recv, isUserError]

/-- C6 witness: a decoded ClientError is returned unchanged as Ok. -/
theorem recv_err_iff_witness :
    recv (.ok (.clientError "oops")) = .ok (.clientError "oops") :=
  (recv_err_iff (.ok (.clientError "oops"))).2 (.clientError "oops") rfl

/-- READ_TIMEOUT of src/poker/src/net/client.rs line 11
(Duration::from_secs(10)), embedded in milliseconds. -/
def READ_TIMEOUT_MS : Nat := 10000

/-- WRITE_TIMEOUT of src/poker/src/net/client.rs line 12
(Duration::from_secs(1)), embedded in milliseconds. -/
def WRITE_TIMEOUT_MS : Nat := 1000

/-- Observable side effects of Client::connect, in program order: a TCP
connection attempt with its per-attempt timeout, a sleep, the two stream
timeout settings, and the write of the Connect request. Durations are in
milliseconds. -/
inductive ConnectEffect
  | attempt (timeout_ms : Nat)
  | sleep (ms : Nat)
  | setReadTimeout (ms : Nat)
  | setWriteTimeout (ms : Nat)
  | sendConnect
  deriving DecidableEq, Repr

/-- The connect_timeouts vec of Client::connect (src/poker/src/net/client.rs
lines 31-35), in declaration order; the loop pops from the BACK. -/
def connect_timeouts : List Nat := [1000, 500, 100]

/-- The retry loop of Client::connect (src/poker/src/net/client.rs lines
36-63) over the remaining timeouts in pop order: attempt
TcpStream::connect_timeout with the popped timeout; on success set the read
and write timeouts and write the Connect message; on failure sleep for the
popped timeout and try the next one. `ok i` says whether the i-th attempt
establishes a TCP connection. The trace stops at the Connect write; the
returned Bool is whether a connection was established. -/
def connectLoop (ok : Nat → Bool) : List Nat → Nat → List ConnectEffect × Bool
  | [], _ => ([], false)
  | t :: ts, i =>
    if ok i then
      ([.attempt t, .setReadTimeout READ_TIMEOUT_MS,
        .setWriteTimeout WRITE_TIMEOUT_MS, .sendConnect], true)
    else
      let r := connectLoop ok ts (i + 1)
      (.attempt t :: .sleep t :: r.1, r.2)

/-- Client::connect up to the Connect write: the while-let pops from the
back of connect_timeouts, so the attempts run over the reversed list; when
the loop exhausts the timeouts, connect bails. -/
def clientConnect (ok : Nat → Bool) : List ConnectEffect × Bool :=
  connectLoop ok connect_timeouts.reverse 0

/-- The per-attempt timeouts occurring in a connect trace, in order. -/
def attemptTimeouts : List ConnectEffect → List Nat :=
  List.filterMap fun e =>
    match e with
    | .attempt t => some t
    | _ => none

theorem clientConnect_cases (ok : Nat → Bool) :
    clientConnect ok =
      if ok 0 then
        ([.attempt 100, .setReadTimeout 10000, .setWriteTimeout 1000,
          .sendConnect], true)
      else if ok 1 then
        ([.attempt 100, .sleep 100, .attempt 500, .setReadTimeout 10000,
          .setWriteTimeout 1000, .sendConnect], true)
      else if ok 2 then
        ([.attempt 100, .sleep 100, .attempt 500, .sleep 500, .attempt 1000,
          .setReadTimeout 10000, .setWriteTimeout 1000, .sendConnect], true)
      else
        ([.attempt 100, .sleep 100, .attempt 500, .sleep 500, .attempt 1000,
          .sleep 1000], false) := by
  by_cases h0 : ok 0 = true <;> by_cases h1 : ok 1 = true <;>
    by_cases h2 : ok 2 = true <;>
      simp [clientConnect, connectLoop, connect_timeouts, READ_TIMEOUT_MS,
        WRITE_TIMEOUT_MS, h0, h1, h2]

/-- C7: whenever a TCP connection is established, Client::connect sets the
read timeout to READ_TIMEOUT (10 s) and the write timeout to WRITE_TIMEOUT
(1 s) on the stream, in that order, immediately before writing the Connect
request, and no timeout is set and no Connect is sent earlier in the
trace. -/
theorem connect_sets_timeouts (ok : Nat → Bool) :
    READ_TIMEOUT_MS = 10000 ∧ WRITE_TIMEOUT_MS = 1000 ∧
    ((clientConnect ok).2 = true →
      ∃ pre,
        (clientConnect ok).1 =
          pre ++ [ConnectEffect.setReadTimeout READ_TIMEOUT_MS,
                  ConnectEffect.setWriteTimeout WRITE_TIMEOUT_MS,
                  ConnectEffect.sendConnect] ∧
        ConnectEffect.sendConnect ∉ pre ∧
        (∀ ms, ConnectEffect.setReadTimeout ms ∉ pre) ∧
        (∀ ms, ConnectEffect.setWriteTimeout ms ∉ pre)) := by
  refine ⟨rfl, rfl, fun hs => ?_⟩
  rw [clientConnect_cases] at hs ⊢
  by_cases h0 : ok 0 = true
  · simp only [h0, if_true]
    exact ⟨[.attempt 100], by decide, by decide,
      fun ms => by simp, fun ms => by simp⟩
  · by_cases h1 : ok 1 = true
    · simp only [h0, h1, if_true, if_false]
      exact ⟨[.attempt 100, .sleep 100, .attempt 500], by decide, by decide,
        fun ms => by simp, fun ms => by simp⟩
    · by_cases h2 : ok 2 = true
      · simp only [h0, h1, h2, if_true, if_false]
        exact ⟨[.attempt 100, .sleep 100, .attempt 500, .sleep 500,
          .attempt 1000], by decide, by decide,
          fun ms => by simp, fun ms => by simp⟩
      · simp [h0, h1, h2] at hs

/-- C7 witness: when the first TCP attempt succeeds, the trace is the
attempt followed by setting the 10 s read timeout, the 1 s write timeout,
and the Connect write. -/
theorem connect_sets_timeouts_witness :
    ∃ pre,
      (clientConnect (fun _ => true)).1 =
        pre ++ [ConnectEffect.setReadTimeout READ_TIMEOUT_MS,
                ConnectEffect.setWriteTimeout WRITE_TIMEOUT_MS,
                ConnectEffect.sendConnect] ∧
      ConnectEffect.sendConnect ∉ pre ∧
      (∀ ms, ConnectEffect.setReadTimeout ms ∉ pre) ∧
      (∀ ms, ConnectEffect.setWriteTimeout ms ∉ pre) :=
  (connect_sets_timeouts (fun _ => true)).2.2 rfl

/-- C10: Client::connect makes at most three TCP attempts, whose
per-attempt timeouts are an initial segment of 100 ms, 500 ms, 1 s in that
order; its trace is one of the four listed (each failed attempt with
timeout t immediately followed by a sleep of t); and when every attempt
fails it gives up after the third without ever sending a message. -/
theorem connect_retry_schedule (ok : Nat → Bool) :
    clientConnect ok ∈
      ([([.attempt 100, .setReadTimeout 10000, .setWriteTimeout 1000,
           .sendConnect], true),
        ([.attempt 100, .sleep 100, .attempt 500, .setReadTimeout 10000,
           .setWriteTimeout 1000, .sendConnect], true),
        ([.attempt 100, .sleep 100, .attempt 500, .sleep 500, .attempt 1000,
           .setReadTimeout 10000, .setWriteTimeout 1000, .sendConnect], true),
        ([.attempt 100, .sleep 100, .attempt 500, .sleep 500, .attempt 1000,
           .sleep 1000], false)] :
        List (List ConnectEffect × Bool)) ∧
    (attemptTimeouts (clientConnect ok).1).length ≤ 3 ∧
    (∃ k, k ≤ 3 ∧
      attemptTimeouts (clientConnect ok).1 = List.take k [100, 500, 1000]) ∧
    ((clientConnect ok).2 = false →
      (clientConnect ok).1 =
        [.attempt 100, .sleep 100, .attempt 500, .sleep 500, .attempt 1000,
         .sleep 1000] ∧
      ConnectEffect.sendConnect ∉ (clientConnect ok).1) := by
  rw [clientConnect_cases]
  by_cases h0 : ok 0 = true <;> by_cases h1 : ok 1 = true <;>
    by_cases h2 : ok 2 = true <;>
      simp only [h0, h1, h2, if_true, if_false] <;>
        refine ⟨by decide, by decide, ?_, fun hf => ?_⟩ <;>
          first
            | exact ⟨1, by decide, by decide⟩
            | exact ⟨2, by decide, by decide⟩
            | exact ⟨3, by decide, by decide⟩
            | exact absurd hf (by decide)
            | exact ⟨rfl, by decide⟩

/-- C10 witness: when every TCP attempt fails, the trace is the three
attempts with timeouts 100 ms, 500 ms, 1 s, each followed by a sleep of the
same duration, and no Connect is ever sent. -/
theorem connect_retry_schedule_witness :
    (clientConnect (fun _ => false)).1 =
      [.attempt 100, .sleep 100, .attempt 500, .sleep 500, .attempt 1000,
       .sleep 1000] ∧
    ConnectEffect.sendConnect ∉ (clientConnect (fun _ => false)).1 :=
  (connect_retry_schedule (fun _ => false)).2.2.2 rfl

/-- Decimal value of a digit character, none for a non-digit. -/
def digitVal (c : Char) : Option Nat :=
  if 48 ≤ c.toNat ∧ c.toNat ≤ 57 then some (c.toNat - 48) else none

/-- Modelled from the spec: Rust str::parse for the unsigned Usd type,
embedded as base-10 parsing of a nonempty all-digit string (the optional
leading sign and the width bound are irrelevant to the claims settled
here). The empty string does not parse. -/
def parseUsd (s : String) : Option Nat :=
  if s.data = [] then none
  else
    s.data.foldl
      (fun acc c =>
        match acc, digitVal c with
        | some n, some d => some (n * 10 + d)
        | _, _ => none)
      (some 0)

/-- A clap argument as declared by pp_server: its long option name, value
name, and default value. -/
structure ArgSpec where
  long : String
  value_name : String
  default_value : String
  deriving DecidableEq, Repr

/-- The bind argument of src/pp_server/src/main.rs lines 25-29. -/
def bindArg : ArgSpec := ⟨"bind", "IP:PORT", "127.0.0.1:6969"⟩

/-- The buy_in argument of src/pp_server/src/main.rs lines 31-36. -/
def buyInArg : ArgSpec := ⟨"buy_in", "USD", "200"⟩

/-- The arguments registered on the pp_server clap Command
(src/pp_server/src/main.rs lines 38-43). -/
def serverArgs : List ArgSpec := [bindArg, buyInArg]

/-- Modelled from the spec: clap (an external crate) resolves an option to
the value given on the command line, or to its declared default when the
option is omitted; the declarations themselves are in
src/pp_server/src/main.rs. -/
def resolveArg (a : ArgSpec) : Option String → String
  | some v => v
  | none => a.default_value

/-- C8: the pp_server command line accepts exactly the options --bind
IP:PORT and --buy_in USD, and when either is omitted it resolves to the
defaults 127.0.0.1:6969 and 200 (the latter parsing as the Usd value
200). -/
theorem server_cli_defaults :
    serverArgs.map ArgSpec.long = ["bind", "buy_in"] ∧
    bindArg.value_name = "IP:PORT" ∧
    buyInArg.value_name = "USD" ∧
    resolveArg bindArg none = "127.0.0.1:6969" ∧
    resolveArg buyInArg none = "200" ∧
    parseUsd (resolveArg buyInArg none) = some 200 ∧
    (∀ v, resolveArg bindArg (some v) = v) ∧
    (∀ v, resolveArg buyInArg (some v) = v) :=
  ⟨rfl, rfl, rfl, rfl, rfl, by decide, fun v => rfl, fun v => rfl⟩

/-- The ten TUI subcommands declared in App::new
(src/pp_client/src/app.rs lines 464-515), in registration order. -/
def tui_subcommands : List String :=
  ["all-in", "call", "check", "clear", "fold", "play", "raise", "show",
   "spectate", "start"]

/-- A successfully parsed TUI command line. -/
inductive ParsedCmd
  | allInCmd
  | callCmd
  | checkCmd
  | clearCmd
  | foldCmd
  | playCmd
  | raiseCmd (amount : String)
  | showCmd
  | spectateCmd
  | startCmd
  deriving DecidableEq, Repr

/-- Modelled from the spec: clap subcommand matching over the commands
declared in App::new (src/pp_client/src/app.rs lines 464-515). The input
line is split on spaces; a line parses exactly when its first token is one
of the ten subcommands and the arity fits: raise takes one optional amount
(clap default_value is the empty string), every other subcommand takes no
argument; anything else is a clap parse error. -/
def parseInput : List String → Option ParsedCmd
  | [c] =>
    if c = "all-in" then some .allInCmd
    else if c = "call" then some .callCmd
    else if c = "check" then some .checkCmd
    else if c = "clear" then some .clearCmd
    else if c = "fold" then some .foldCmd
    else if c = "play" then some .playCmd
    else if c = "raise" then some (.raiseCmd "")
    else if c = "show" then some .showCmd
    else if c = "spectate" then some .spectateCmd
    else if c = "start" then some .startCmd
    else none
  | [c, a] => if c = "raise" then some (.raiseCmd a) else none
  | _ => none

/-- Discriminant of an Action. Modelled from the spec: the poker library
derives Hash and PartialEq for Action on the variant only, as restated by
the comments in App::handle_command (src/pp_client/src/app.rs lines
338-341): amounts do not take part in comparisons. -/
def actionVariant : Action → Nat
  | .fold => 0
  | .check => 1
  | .call _ => 2
  | .raise _ => 3
  | .allIn => 4

/-- HashSet::get on the TurnSignal action set: return the stored element
equal to the probe, where equality compares variants only. The stored
element carries the server-computed amount. -/
def optionsGet (opts : List Action) (probe : Action) : Option Action :=
  opts.find? fun a => actionVariant a == actionVariant probe

/-- The error records App::handle_command can push to its local log; the
program renders them as the corresponding English strings. -/
inductive LogMsg
  | cantAllIn
  | cantCall
  | cantCheck
  | cantFold
  | cantRaise
  | unrecognized (input : String)
  deriving DecidableEq, Repr

/-- Observable outcome of one App::handle_command call: the message sent on
the channel to the network thread (at most one), the error record pushed to
the local log, and whether the log was cleared. -/
structure CmdResult where
  sent : Option ClientMessage
  errorRecord : Option LogMsg
  clearedLog : Bool
  deriving DecidableEq, Repr

/-- App::handle_command (src/pp_client/src/app.rs lines 311-462): parse the
input line with clap; on a parse error push an unrecognized-command error
record and send nothing; the betting commands all-in, call, check, fold and
raise are gated on the matching variant being present in the TurnSignal
action set (sending the stored action, except that raise with a parseable
amount sends Raise of that amount); clear only clears the log; play,
spectate, show and start always send their request. -/
def handle_command (username : String) (input : List String)
    (action_options : List Action) : CmdResult :=
  match parseInput input with
  | none => ⟨none, some (.unrecognized (String.intercalate " " input)), false⟩
  | some .allInCmd =>
    match optionsGet action_options .allIn with
    | some a => ⟨some ⟨username, .takeAction a⟩, none, false⟩
    | none => ⟨none, some .cantAllIn, false⟩
  | some .callCmd =>
    match optionsGet action_options (.call 0) with
    | some a => ⟨some ⟨username, .takeAction a⟩, none, false⟩
    | none => ⟨none, some .cantCall, false⟩
  | some .checkCmd =>
    match optionsGet action_options .check with
    | some a => ⟨some ⟨username, .takeAction a⟩, none, false⟩
    | none => ⟨none, some .cantCheck, false⟩
  | some .clearCmd => ⟨none, none, true⟩
  | some .foldCmd =>
    match optionsGet action_options .fold with
    | some a => ⟨some ⟨username, .takeAction a⟩, none, false⟩
    | none => ⟨none, some .cantFold, false⟩
  | some .playCmd => ⟨some ⟨username, .changeState .play⟩, none, false⟩
  | some (.raiseCmd amount) =>
    match optionsGet action_options (.raise 0) with
    | some a =>
      match parseUsd amount with
      | some n => ⟨some ⟨username, .takeAction (.raise n)⟩, none, false⟩
      | none => ⟨some ⟨username, .takeAction a⟩, none, false⟩
    | none => ⟨none, some .cantRaise, false⟩
  | some .showCmd => ⟨some ⟨username, .showHand⟩, none, false⟩
  | some .spectateCmd => ⟨some ⟨username, .changeState .spectate⟩, none, false⟩
  | some .startCmd => ⟨some ⟨username, .startGame⟩, none, false⟩

/-- The TurnSignal arm of the UI loop (src/pp_client/src/app.rs lines
751-752): the local action set is replaced wholesale by the set carried in
the most recent TurnSignal. -/
def applyTurnSignal (_current incoming : List Action) : List Action :=
  incoming

theorem parseInput_single (c : String) :
    (parseInput [c]).isSome = true ↔ c ∈ tui_subcommands := by
  by_cases hm : c ∈ tui_subcommands
  · simp only [hm, iff_true]
    simp only [tui_subcommands, List.mem_cons, List.not_mem_nil,
      or_false] at hm
    rcases hm with rfl | rfl | rfl | rfl | rfl | rfl | rfl | rfl | rfl | rfl <;>
      decide
  · simp only [hm, iff_false]
    simp only [tui_subcommands, List.mem_cons, List.not_mem_nil,
      or_false, not_or] at hm
    obtain ⟨h1, h2, h3, h4, h5, h6, h7, h8, h9, h10⟩ := hm
    simp [parseInput, h1, h2, h3, h4, h5, h6, h7, h8, h9, h10]

theorem parseInput_pair (c a : String) :
    parseInput [c, a] = if c = "raise" then some (.raiseCmd a) else none :=
  rfl

theorem parseInput_nil : parseInput [] = none := rfl

theorem parseInput_long (c a b : String) (rest : List String) :
    parseInput (c :: a :: b :: rest) = none := rfl

theorem parseInput_fold : parseInput ["fold"] = some .foldCmd := by decide

theorem parseInput_check : parseInput ["check"] = some .checkCmd := by
  decide

theorem parseInput_call : parseInput ["call"] = some .callCmd := by decide

theorem parseInput_allIn : parseInput ["all-in"] = some .allInCmd := by
  decide

/-- C9: the TUI accepts exactly the ten commands all-in, call, check,
clear, fold, play, raise, show, spectate and start — raise optionally with
one amount argument, the others with none — and any other input line is
rejected with a local unrecognized-command error record and sends nothing
to the server. -/
theorem tui_command_surface :
    (∀ c, c ∈ tui_subcommands ↔ (parseInput [c]).isSome = true) ∧
    (∀ a, (parseInput ["raise", a]).isSome = true) ∧
    (∀ c a, c ≠ "raise" → parseInput [c, a] = none) ∧
    (∀ input, (parseInput input).isSome = true →
      ∃ c ∈ tui_subcommands, input.head? = some c) ∧
    (∀ u input opts, parseInput input = none →
      handle_command u input opts =
        ⟨none, some (.unrecognized (String.intercalate " " input)),
          false⟩) := by
  refine ⟨fun c => (parseInput_single c).symm,
    fun a => by simp [parseInput_pair], ?_, ?_, ?_⟩
  · intro c a hc
    simp [parseInput_pair, hc]
  · intro input h
    match input with
    | [] => simp [parseInput_nil] at h
    | [c] => exact ⟨c, (parseInput_single c).mp h, rfl⟩
    | [c, a] =>
      by_cases hc : c = "raise"
      · subst hc
        exact ⟨"raise", by decide, rfl⟩
      · simp [parseInput_pair, hc] at h
    | c :: a :: b :: rest => simp [parseInput_long] at h
  · intro u input opts h
    simp [handle_command, h]

/-- C9 witness: the command fold is accepted, and the misspelt line flod is
rejected with an unrecognized-command record and no message sent. -/
theorem tui_command_surface_witness :
    (parseInput ["fold"]).isSome = true ∧
    handle_command "alice" ["flod"] [] =
      ⟨none, some (.unrecognized (String.intercalate " " ["flod"])),
        false⟩ :=
  ⟨(tui_command_surface.1 "fold").mp (by decide),
   tui_command_surface.2.2.2.2 "alice" ["flod"] [] (by decide)⟩

/-- C5: each betting command fold, check, call and all-in sends a
TakeAction request exactly when the matching Action variant is in the most
recently received TurnSignal action set, and the action sent is the stored
server-enumerated one (for call, the stored Call with its server-computed
amount); when the variant is absent a local error is recorded and nothing
is sent. The TurnSignal handler replaces the action set wholesale. -/
theorem tui_betting_gated (u : String) (opts : List Action) :
    (∀ cur incoming, applyTurnSignal cur incoming = incoming) ∧
    (∀ a, optionsGet opts .fold = some a →
      handle_command u ["fold"] opts =
        ⟨some ⟨u, .takeAction a⟩, none, false⟩ ∧ a ∈ opts ∧ a = .fold) ∧
    (optionsGet opts .fold = none →
      handle_command u ["fold"] opts = ⟨none, some .cantFold, false⟩) ∧
    (∀ a, optionsGet opts .check = some a →
      handle_command u ["check"] opts =
        ⟨some ⟨u, .takeAction a⟩, none, false⟩ ∧ a ∈ opts ∧ a = .check) ∧
    (optionsGet opts .check = none →
      handle_command u ["check"] opts = ⟨none, some .cantCheck, false⟩) ∧
    (∀ a, optionsGet opts .allIn = some a →
      handle_command u ["all-in"] opts =
        ⟨some ⟨u, .takeAction a⟩, none, false⟩ ∧ a ∈ opts ∧ a = .allIn) ∧
    (optionsGet opts .allIn = none →
      handle_command u ["all-in"] opts = ⟨none, some .cantAllIn, false⟩) ∧
    (∀ a, optionsGet opts (.call 0) = some a →
      handle_command u ["call"] opts =
        ⟨some ⟨u, .takeAction a⟩, none, false⟩ ∧ a ∈ opts ∧
        ∃ n, a = .call n) ∧
    (optionsGet opts (.call 0) = none →
      handle_command u ["call"] opts = ⟨none, some .cantCall, false⟩) := by
  refine ⟨fun cur incoming => rfl, ?_, ?_, ?_, ?_, ?_, ?_, ?_, ?_⟩
  · intro a h
    have h' := h
    simp only [optionsGet] at h'
    refine ⟨by simp [handle_command, parseInput_fold, h],
      List.mem_of_find?_eq_some h', ?_⟩
    have hp := List.find?_some h'
    cases a <;> simp_all [actionVariant]
  · intro h
    simp [handle_command, parseInput_fold, h]
  · intro a h
    have h' := h
    simp only [optionsGet] at h'
    refine ⟨by simp [handle_command, parseInput_check, h],
      List.mem_of_find?_eq_some h', ?_⟩
    have hp := List.find?_some h'
    cases a <;> simp_all [actionVariant]
  · intro h
    simp [handle_command, parseInput_check, h]
  · intro a h
    have h' := h
    simp only [optionsGet] at h'
    refine ⟨by simp [handle_command, parseInput_allIn, h],
      List.mem_of_find?_eq_some h', ?_⟩
    have hp := List.find?_some h'
    cases a <;> simp_all [actionVariant]
  · intro h
    simp [handle_command, parseInput_allIn, h]
  · intro a h
    have h' := h
    simp only [optionsGet] at h'
    refine ⟨by simp [handle_command, parseInput_call, h],
      List.mem_of_find?_eq_some h', ?_⟩
    have hp := List.find?_some h'
    cases a <;> simp_all [actionVariant]
  · intro h
    simp [handle_command, parseInput_call, h]

/-- C5 witness: with the TurnSignal action set Fold, Call(7), the call
command sends the stored Call with the server-computed amount 7; with an
empty action set, check records a local error and sends nothing. -/
theorem tui_betting_gated_witness :
    (handle_command "alice" ["call"] [Action.fold, Action.call 7] =
        ⟨some ⟨"alice", .takeAction (.call 7)⟩, none, false⟩ ∧
      Action.call 7 ∈ [Action.fold, Action.call 7] ∧
      ∃ n, Action.call 7 = Action.call n) ∧
    handle_command "alice" ["check"] [] = ⟨none, some .cantCheck, false⟩ :=
  ⟨(tui_betting_gated "alice" [.fold, .call 7]).2.2.2.2.2.2.2.1 (.call 7)
      (by decide),
   (tui_betting_gated "alice" []).2.2.2.2.1 (by decide)⟩

end PrivatePoker
